import Mathlib

/-!
Verification of the tintopia color-ramp generator.

The JavaScript source is embedded shallowly: pure numeric functions become
Lean functions on `ℝ` (or on `ℚ` where the function is fully rational and
executable), the `throw` statements become `Except.error`, and the
`for`-loop of the ramp generator becomes a structurally recursive loop
returning the three accumulated lists.  The JavaScript remainder operator
`%` is modelled by `jsMod` (remainder with truncation toward zero) and
`Math.round` by `jsRound` (floor of `x + 1/2`).
-/

namespace Tintopia

/-- Color triple `(hue, saturation, lightness | value)` as pushed by the generator. -/
abbrev Color : Type := ℝ × ℝ × ℝ

/-- Errors the JavaScript code can throw: the explicit `throw new Error(...)` in the
`default` branch of `pointOnCurve` (the "InvalidCurveMethod" error of the spec), and
the implicit `TypeError` raised when the literal string `"function"` is selected and
the code then attempts to call that string as a function. -/
inductive JsError where
  | invalidCurveMethod
  | typeError

deriving instance DecidableEq for JsError

/-- Value of the `curveMethod` configuration field: in JavaScript it is either a
string or a function value.  The `switch` in `pointOnCurve` compares this value
against string literals with strict equality. -/
inductive CurveMethod where
  | str (s : String)
  | fn (f : ℝ → ℝ × ℝ)

/-- Embedding of `hsv2hsl` (src/js/main.js lines 9-15): default parameters
`lightness = value - value*saturation/2`, `minLightness = min(lightness, 1-lightness)`,
result `[hue, minLightness ? (value-lightness)/minLightness : 0, lightness]`.
The JavaScript conditional tests truthiness of `minLightness`, i.e. whether it is 0. -/
noncomputable def hsv2hsl (hue saturation value : ℝ) : Color :=
  let lightness := value - value * saturation / 2
  let minLightness := min lightness (1 - lightness)
  (hue, if minLightness = 0 then 0 else (value - lightness) / minLightness, lightness)

/-- Embedding of `hsv2hsx` (src/js/main.js lines 24-25): convert to HSL when
`mode === "hsl"`, otherwise pass the HSV triple through unchanged. -/
noncomputable def hsv2hsx (hue saturation value : ℝ) (mode : String) : Color :=
  if mode == "hsl" then hsv2hsl hue saturation value else (hue, saturation, value)

/-- Rounding as JavaScript `Math.round`: floor of `x + 1/2` (halves round up). -/
def jsRound (x : ℚ) : ℤ := ⌊x + 1 / 2⌋

/-- Rendering of an integer in base 16, lowercase, as JavaScript
`Number.prototype.toString(16)` does for integers. -/
def toString16 (n : ℤ) : String :=
  if n < 0 then "-" ++ String.mk (Nat.toDigits 16 n.natAbs)
  else String.mk (Nat.toDigits 16 n.toNat)

/-- Embedding of the `toHex` helper inside `hslToHex` (src/js/main.js lines 66-69):
round the channel scaled by 255, render in base 16, left-pad to two digits. -/
def toHex (component : ℚ) : String :=
  let hex := toString16 (jsRound (component * 255))
  if hex.length = 1 then "0" ++ hex else hex

/-- Embedding of `calculateComponent` inside `hslToHex` (src/js/main.js lines 37-46).
The two wrap-around adjustments of `temporary` are sequential, as in the source. -/
def calculateComponent (primary secondary temporary : ℚ) : ℚ :=
  let t1 := if temporary < 0 then temporary + 1 else temporary
  let t2 := if t1 > 1 then t1 - 1 else t1
  if t2 < 1 / 6 then primary + (secondary - primary) * 6 * t2
  else if t2 < 1 / 2 then secondary
  else if t2 < 2 / 3 then primary + (secondary - primary) * (2 / 3 - t2) * 6
  else primary

/-- Embedding of `hslToHex` (src/js/main.js lines 27-72).  Inputs are hue in
degrees and saturation/lightness in percent; the function is fully rational, so it
is embedded executably over `ℚ`. -/
def hslToHex (hue saturation lightness : ℚ) : String :=
  let hue := hue / 360
  let saturation := saturation / 100
  let lightness := lightness / 100
  if saturation = 0 then
    "#" ++ toHex lightness ++ toHex lightness ++ toHex lightness
  else
    let secondaryComponent :=
      if lightness < 1 / 2 then lightness * (1 + saturation)
      else lightness + saturation - lightness * saturation
    let primaryComponent := 2 * lightness - secondaryComponent
    let red := calculateComponent primaryComponent secondaryComponent (hue + 1 / 3)
    let green := calculateComponent primaryComponent secondaryComponent hue
    let blue := calculateComponent primaryComponent secondaryComponent (hue - 1 / 3)
    "#" ++ toHex red ++ toHex green ++ toHex blue

/-- Claim C7: `hsv2hsl(h, s, v)` computes lightness `v - v*s/2`, which lies in
`[0,1]` whenever `s, v ∈ [0,1]`; whenever `s = 0` the returned saturation is `0`;
and at the lightness extremes `0` and `1` the division is guarded by returning
saturation `0`. -/
theorem hsv2hsl_lightness_saturation (h s v : ℝ)
    (hs0 : 0 ≤ s) (hs1 : s ≤ 1) (hv0 : 0 ≤ v) (hv1 : v ≤ 1) :
    (hsv2hsl h s v).2.2 = v - v * s / 2 ∧
    0 ≤ (hsv2hsl h s v).2.2 ∧ (hsv2hsl h s v).2.2 ≤ 1 ∧
    (s = 0 → (hsv2hsl h s v).2.1 = 0) ∧
    ((hsv2hsl h s v).2.2 = 0 ∨ (hsv2hsl h s v).2.2 = 1 → (hsv2hsl h s v).2.1 = 0) := by
  have hL : (hsv2hsl h s v).2.2 = v - v * s / 2 := rfl
  refine ⟨hL, ?_, ?_, ?_, ?_⟩
  · rw [hL]; nlinarith
  · rw [hL]; nlinarith
  · intro hzero
    subst hzero
    simp [hsv2hsl]
  · intro hext
    have hml : min (v - v * s / 2) (1 - (v - v * s / 2)) = 0 := by
      rcases hext with hl | hl <;> rw [hL] at hl <;> rw [hl] <;> simp
    show (if min (v - v * s / 2) (1 - (v - v * s / 2)) = 0 then (0:ℝ)
      else (v - (v - v * s / 2)) / min (v - v * s / 2) (1 - (v - v * s / 2))) = 0
    rw [if_pos hml]

/-- Witness for C7 at `h = 0`, `s = 0`, `v = 1/2`. -/
theorem hsv2hsl_lightness_saturation_witness :
    (hsv2hsl 0 0 (1/2)).2.2 = 1/2 - 1/2 * 0 / 2 ∧
    0 ≤ (hsv2hsl 0 0 (1/2)).2.2 ∧ (hsv2hsl 0 0 (1/2)).2.2 ≤ 1 ∧
    ((0:ℝ) = 0 → (hsv2hsl 0 0 (1/2)).2.1 = 0) ∧
    ((hsv2hsl 0 0 (1/2)).2.2 = 0 ∨ (hsv2hsl 0 0 (1/2)).2.2 = 1 →
      (hsv2hsl 0 0 (1/2)).2.1 = 0) :=
  hsv2hsl_lightness_saturation 0 0 (1/2) le_rfl zero_le_one (by norm_num) (by norm_num)

/-- Claim C8: `hslToHex(0, 100, 50)` is `"#ff0000"`, and for every hue `h`,
`hslToHex(h, 0, 50)` is `"#808080"` (each channel rounded and rendered as two
lowercase zero-padded hex digits). -/
theorem hslToHex_red_and_gray :
    hslToHex 0 100 50 = "#ff0000" ∧ ∀ h : ℚ, hslToHex h 0 50 = "#808080" := by
  constructor
  · norm_num [hslToHex, calculateComponent, toHex, toString16, jsRound]
    rfl
  · intro h
    norm_num [hslToHex, toHex, toString16, jsRound]
    rfl

/-- Clamp to `[0,1]` and remap into `[mn, mx]`, as applied to both coordinates after
the `switch` of `pointOnCurve` (src/js/main.js lines 141-142):
`mn + Math.min(Math.max(v, 0), 1) * (mx - mn)`. -/
noncomputable def remap (v mn mx : ℝ) : ℝ := mn + min (max v 0) 1 * (mx - mn)

/-- Raw curve point assigned by the five named branches of the `switch` in
`pointOnCurve` (src/js/main.js lines 99-128), before clamping.  The final branch
returns `(0, 0)`, the initialization values of `x` and `y` in the source; it is
never used for an unrecognized name because `pointOnCurve` throws there instead. -/
noncomputable def rawPoint (s : String) (i total curveAccent : ℝ) : ℝ × ℝ :=
  let limit := Real.pi / 2
  let slice := limit / total
  let percentile := i / total
  if s == "lame" then
    let t := percentile * limit
    let e := 2 / (2 + 20 * curveAccent)
    (Real.sign (Real.cos t) * Real.rpow |Real.cos t| e,
     Real.sign (Real.sin t) * Real.rpow |Real.sin t| e)
  else if s == "arc" then
    (Real.sin (Real.pi / 2 + i * slice - curveAccent),
     Real.cos (-(Real.pi / 2) + i * slice + curveAccent))
  else if s == "pow" then
    (Real.rpow (1 - percentile) (1 - curveAccent),
     Real.rpow percentile (1 - curveAccent))
  else if s == "powY" then
    (Real.rpow (1 - percentile) curveAccent,
     Real.rpow percentile (1 - curveAccent))
  else if s == "powX" then
    (Real.rpow percentile curveAccent,
     Real.rpow percentile (1 - curveAccent))
  else (0, 0)

/-- The five curve names recognized by the `switch` in `pointOnCurve`. -/
def isNamedCurve (s : String) : Bool :=
  s == "lame" || s == "arc" || s == "pow" || s == "powY" || s == "powX"

/-- Embedding of `pointOnCurve` (src/js/main.js lines 84-145).  The `switch`
compares `curveMethod` with string literals, so a function value matches no case
and falls to the `default` branch, which throws (the InvalidCurveMethod error).
The case labelled with the literal string `"function"` then calls `curveMethod`
as a function, which for the only matching value (the string `"function"` itself)
is a `TypeError`.  For the five recognized names the raw point is clamped to
`[0,1]` coordinatewise and remapped into the `[mn, mx]` rectangle. -/
noncomputable def pointOnCurve (curveMethod : CurveMethod) (i total curveAccent : ℝ)
    (mn mx : ℝ × ℝ) : Except JsError (ℝ × ℝ) :=
  match curveMethod with
  | .fn _ => .error .invalidCurveMethod
  | .str s =>
    if isNamedCurve s then
      .ok (remap (rawPoint s i total curveAccent).1 mn.1 mx.1,
           remap (rawPoint s i total curveAccent).2 mn.2 mx.2)
    else if s == "function" then .error .typeError
    else .error .invalidCurveMethod

/-- The value `pointOnCurve` returns for one of the five recognized curve names. -/
noncomputable def pointOnCurveOk (s : String) (i total curveAccent : ℝ)
    (mn mx : ℝ × ℝ) : ℝ × ℝ :=
  (remap (rawPoint s i total curveAccent).1 mn.1 mx.1,
   remap (rawPoint s i total curveAccent).2 mn.2 mx.2)

/-- Ramp Configuration: the parameter record of `generateRandomColorRamp`
(src/js/main.js lines 164-178). -/
structure Config where
  total : ℤ
  centerHue : ℝ
  hueCycle : ℝ
  offsetTint : ℝ
  offsetShade : ℝ
  curveAccent : ℝ
  tintShadeHueShift : ℝ
  curveMethod : CurveMethod
  offsetCurveModTint : ℝ
  offsetCurveModShade : ℝ
  minSaturationLight : ℝ × ℝ
  maxSaturationLight : ℝ × ℝ
  colorModel : String

/-- Ramp Result: the record returned by `generateRandomColorRamp`
(src/js/main.js lines 237-242). -/
structure Ramp where
  light : List Color
  dark : List Color
  base : List Color
  all : List Color

/-- The default parameter values of `generateRandomColorRamp` in src/js/main.js
(lines 164-178): note `total = 198` there. -/
noncomputable def defaultConfigMain : Config where
  total := 198
  centerHue := 0
  hueCycle := 0.3
  offsetTint := 0.1
  offsetShade := 0.1
  curveAccent := 0
  tintShadeHueShift := 0.1
  curveMethod := .str "arc"
  offsetCurveModTint := 0.03
  offsetCurveModShade := 0.03
  minSaturationLight := (0, 0)
  maxSaturationLight := (1, 1)
  colorModel := "hsl"

/-- The default parameter values of `generateRandomColorRamp` in the unnamed
variant src/unnamed/part_000 (lines 117-131): identical to the ones in
src/js/main.js except `total = 3`. -/
noncomputable def defaultConfigPart : Config where
  total := 3
  centerHue := 0
  hueCycle := 0.3
  offsetTint := 0.1
  offsetShade := 0.1
  curveAccent := 0
  tintShadeHueShift := 0.1
  curveMethod := .str "arc"
  offsetCurveModTint := 0.03
  offsetCurveModShade := 0.03
  minSaturationLight := (0, 0)
  maxSaturationLight := (1, 1)
  colorModel := "hsl"

/-- Truncation toward zero, as used by the JavaScript remainder operator. -/
noncomputable def jsTrunc (x : ℝ) : ℤ := if 0 ≤ x then ⌊x⌋ else ⌈x⌉

/-- The JavaScript remainder operator on real numbers:
`a % b = a - b * trunc (a / b)` (the result keeps the sign of the dividend). -/
noncomputable def jsMod (a b : ℝ) : ℝ := a - b * jsTrunc (a / b)

/-- Base hue of iteration `i` of the generator loop (src/js/main.js lines 192-196):
`(360 + (-180 * hueCycle + (centerHue + i * (360 / (total + 1)) * hueCycle))) % 360`. -/
noncomputable def rampHue (cfg : Config) (i : ℕ) : ℝ :=
  jsMod (360 + (-180 * cfg.hueCycle +
    (cfg.centerHue + (i : ℝ) * (360 / ((cfg.total : ℝ) + 1)) * cfg.hueCycle))) 360

/-- Body of iteration `i` of the generator loop (src/js/main.js lines 183-235):
sample the curve at `curveAccent`, `curveAccent + offsetCurveModTint` and
`curveAccent - offsetCurveModShade` (all with `total + 1` divisions), convert with
`hsv2hsx`, and produce the `(base, tint, shade)` colors pushed into the three
arrays.  Any throw inside `pointOnCurve` aborts the whole loop. -/
noncomputable def rampStep (cfg : Config) (i : ℕ) :
    Except JsError (Color × Color × Color) :=
  match pointOnCurve cfg.curveMethod i ((cfg.total : ℝ) + 1) cfg.curveAccent
      cfg.minSaturationLight cfg.maxSaturationLight with
  | .error e => .error e
  | .ok p =>
    let h := rampHue cfg i
    let hsl := hsv2hsx h p.1 p.2 cfg.colorModel
    match pointOnCurve cfg.curveMethod i ((cfg.total : ℝ) + 1)
        (cfg.curveAccent + cfg.offsetCurveModTint)
        cfg.minSaturationLight cfg.maxSaturationLight with
    | .error e => .error e
    | .ok pl =>
      let hslLight := hsv2hsx h pl.1 pl.2 cfg.colorModel
      let light : Color := (jsMod (h + 360 * cfg.tintShadeHueShift) 360,
        hslLight.2.1 - cfg.offsetTint, hslLight.2.2 + cfg.offsetTint)
      match pointOnCurve cfg.curveMethod i ((cfg.total : ℝ) + 1)
          (cfg.curveAccent - cfg.offsetCurveModShade)
          cfg.minSaturationLight cfg.maxSaturationLight with
      | .error e => .error e
      | .ok pd =>
        let hslDark := hsv2hsx h pd.1 pd.2 cfg.colorModel
        let dark : Color := (jsMod (360 + (h - 360 * cfg.tintShadeHueShift)) 360,
          hslDark.2.1 - cfg.offsetShade, hslDark.2.2 - cfg.offsetShade)
        .ok (hsl, light, dark)

/-- The `(base, tint, shade)` triple of iteration `i` when `curveMethod` is the
recognized name `s`; `rampStep` then returns exactly this value. -/
noncomputable def stepOk (cfg : Config) (s : String) (i : ℕ) :
    Color × Color × Color :=
  let p := pointOnCurveOk s i ((cfg.total : ℝ) + 1) cfg.curveAccent
    cfg.minSaturationLight cfg.maxSaturationLight
  let h := rampHue cfg i
  let hsl := hsv2hsx h p.1 p.2 cfg.colorModel
  let pl := pointOnCurveOk s i ((cfg.total : ℝ) + 1)
    (cfg.curveAccent + cfg.offsetCurveModTint)
    cfg.minSaturationLight cfg.maxSaturationLight
  let hslLight := hsv2hsx h pl.1 pl.2 cfg.colorModel
  let light : Color := (jsMod (h + 360 * cfg.tintShadeHueShift) 360,
    hslLight.2.1 - cfg.offsetTint, hslLight.2.2 + cfg.offsetTint)
  let pd := pointOnCurveOk s i ((cfg.total : ℝ) + 1)
    (cfg.curveAccent - cfg.offsetCurveModShade)
    cfg.minSaturationLight cfg.maxSaturationLight
  let hslDark := hsv2hsx h pd.1 pd.2 cfg.colorModel
  let dark : Color := (jsMod (360 + (h - 360 * cfg.tintShadeHueShift)) 360,
    hslDark.2.1 - cfg.offsetShade, hslDark.2.2 - cfg.offsetShade)
  (hsl, light, dark)

/-- The `for` loop of `generateRandomColorRamp` (src/js/main.js line 183):
run `rampStep` for `n` iterations starting at index `i`, accumulating the
`(base, light, dark)` lists in push order. -/
noncomputable def rampLoop (cfg : Config) :
    ℕ → ℕ → Except JsError (List Color × List Color × List Color)
  | _, 0 => .ok ([], [], [])
  | i, n + 1 =>
    match rampStep cfg i with
    | .error e => .error e
    | .ok step =>
      match rampLoop cfg (i + 1) n with
      | .error e => .error e
      | .ok acc => .ok (step.1 :: acc.1, step.2.1 :: acc.2.1, step.2.2 :: acc.2.2)

/-- Embedding of `generateRandomColorRamp` (src/js/main.js lines 164-243):
the loop runs for `i = 1` while `i < total + 1`, i.e. `total.toNat` iterations,
and the result record is `{light, dark, base, all = light ++ base ++ dark}`. -/
noncomputable def generateRandomColorRamp (cfg : Config) : Except JsError Ramp :=
  match rampLoop cfg 1 cfg.total.toNat with
  | .error e => .error e
  | .ok acc =>
    .ok { light := acc.2.1, dark := acc.2.2, base := acc.1,
          all := acc.2.1 ++ acc.1 ++ acc.2.2 }

/-- Configurations used as concrete inputs below. -/
noncomputable def cfgFunctionStr : Config :=
  { defaultConfigMain with curveMethod := .str "function", total := 3 }

/-- Configuration with the unsupported curve name `"bogus"` and three steps. -/
noncomputable def cfgBogus : Config :=
  { defaultConfigMain with curveMethod := .str "bogus", total := 3 }

/-- Configuration with the unsupported curve name `"bogus"` and zero steps. -/
noncomputable def cfgBogusZero : Config :=
  { defaultConfigMain with curveMethod := .str "bogus", total := 0 }

/-- Configuration of the hue-wrap instance of the spec: `centerHue = 350`,
`hueCycle = 1`, `total = 1`. -/
noncomputable def cfgHue : Config :=
  { defaultConfigMain with centerHue := 350, hueCycle := 1, total := 1 }

lemma remap_le_left (v mn mx : ℝ) (h : mn ≤ mx) : mn ≤ remap v mn mx := by
  have h0 : 0 ≤ min (max v 0) 1 := le_min (le_max_right v 0) zero_le_one
  have := mul_nonneg h0 (sub_nonneg.mpr h)
  unfold remap
  linarith

lemma remap_le_right (v mn mx : ℝ) (h : mn ≤ mx) : remap v mn mx ≤ mx := by
  have h1 : min (max v 0) 1 ≤ 1 := min_le_right _ _
  have := mul_le_of_le_one_left (sub_nonneg.mpr h) h1
  unfold remap
  linarith

lemma pointOnCurve_named (s : String) (hs : isNamedCurve s = true)
    (i total curveAccent : ℝ) (mn mx : ℝ × ℝ) :
    pointOnCurve (.str s) i total curveAccent mn mx =
      .ok (pointOnCurveOk s i total curveAccent mn mx) := by
  simp [pointOnCurve, pointOnCurveOk, hs]

lemma pointOnCurve_unrecognized (s : String) (h1 : isNamedCurve s = false)
    (h2 : s ≠ "function") (i total curveAccent : ℝ) (mn mx : ℝ × ℝ) :
    pointOnCurve (.str s) i total curveAccent mn mx =
      .error JsError.invalidCurveMethod := by
  simp [pointOnCurve, h1, h2]

lemma rampStep_named (cfg : Config) (s : String)
    (hcm : cfg.curveMethod = CurveMethod.str s) (hs : isNamedCurve s = true)
    (i : ℕ) : rampStep cfg i = .ok (stepOk cfg s i) := by
  simp only [rampStep, hcm, pointOnCurve_named s hs]
  rfl

lemma rampLoop_named (cfg : Config) (s : String)
    (hcm : cfg.curveMethod = CurveMethod.str s) (hs : isNamedCurve s = true) :
    ∀ n i, rampLoop cfg i n =
      .ok ((List.range' i n).map (fun k => (stepOk cfg s k).1),
           (List.range' i n).map (fun k => (stepOk cfg s k).2.1),
           (List.range' i n).map (fun k => (stepOk cfg s k).2.2)) := by
  intro n
  induction n with
  | zero => intro i; simp [rampLoop]
  | succ n ih =>
    intro i
    simp only [rampLoop]
    rw [rampStep_named cfg s hcm hs i, ih (i + 1)]
    simp [List.range'_succ]

lemma generateRandomColorRamp_named (cfg : Config) (s : String)
    (hcm : cfg.curveMethod = CurveMethod.str s) (hs : isNamedCurve s = true) :
    generateRandomColorRamp cfg =
      .ok { light := (List.range' 1 cfg.total.toNat).map (fun k => (stepOk cfg s k).2.1),
            dark := (List.range' 1 cfg.total.toNat).map (fun k => (stepOk cfg s k).2.2),
            base := (List.range' 1 cfg.total.toNat).map (fun k => (stepOk cfg s k).1),
            all := (List.range' 1 cfg.total.toNat).map (fun k => (stepOk cfg s k).2.1) ++
                   (List.range' 1 cfg.total.toNat).map (fun k => (stepOk cfg s k).1) ++
                   (List.range' 1 cfg.total.toNat).map (fun k => (stepOk cfg s k).2.2) } := by
  simp only [generateRandomColorRamp]
  rw [rampLoop_named cfg s hcm hs]

lemma jsMod_nonneg_lt (a b : ℝ) (ha : 0 ≤ a) (hb : 0 < b) :
    0 ≤ jsMod a b ∧ jsMod a b < b := by
  have hq : 0 ≤ a / b := div_nonneg ha hb.le
  have hrw : jsMod a b = b * Int.fract (a / b) := by
    unfold jsMod jsTrunc
    rw [if_pos hq, Int.fract]
    field_simp
  rw [hrw]
  constructor
  · exact mul_nonneg hb.le (Int.fract_nonneg _)
  · have h1 := Int.fract_lt_one (a / b)
    nlinarith

/-- Claim C2 (code evaluated at the failing input): a callable `curveMethod`
matches no string case of the `switch`, falls to the `default` branch, and
`pointOnCurve` throws the InvalidCurveMethod error instead of invoking it. -/
theorem pointOnCurve_callable_rejected :
    pointOnCurve (CurveMethod.fn (fun p => (p, 1 - p))) 1 4 0 (0, 0) (1, 1) =
      .error JsError.invalidCurveMethod := rfl

/-- Claim C3: for every recognized curveMethod name, every curveAccent, every
total ≥ 1 and every `i ∈ [0, total]`, both coordinates returned by
`pointOnCurve` lie within `[mn.k, mx.k]` inclusive. -/
theorem pointOnCurve_within_bounds (s : String) (hs : isNamedCurve s = true)
    (i total curveAccent : ℝ) (mn mx : ℝ × ℝ)
    (htotal : 1 ≤ total) (hi0 : 0 ≤ i) (hi1 : i ≤ total)
    (hx : mn.1 ≤ mx.1) (hy : mn.2 ≤ mx.2) :
    ∃ x y, pointOnCurve (.str s) i total curveAccent mn mx = .ok (x, y) ∧
      mn.1 ≤ x ∧ x ≤ mx.1 ∧ mn.2 ≤ y ∧ y ≤ mx.2 :=
  ⟨remap (rawPoint s i total curveAccent).1 mn.1 mx.1,
   remap (rawPoint s i total curveAccent).2 mn.2 mx.2,
   pointOnCurve_named s hs i total curveAccent mn mx,
   remap_le_left _ _ _ hx, remap_le_right _ _ _ hx,
   remap_le_left _ _ _ hy, remap_le_right _ _ _ hy⟩

/-- Witness for C3: the `"arc"` method at `i = 1`, `total = 2`, `curveAccent = 0`,
with the default rectangle `[0,1] × [0,1]`. -/
theorem pointOnCurve_within_bounds_witness :
    ∃ x y, pointOnCurve (.str "arc") 1 2 0 (0, 0) (1, 1) = .ok (x, y) ∧
      (0:ℝ) ≤ x ∧ x ≤ 1 ∧ (0:ℝ) ≤ y ∧ y ≤ 1 := by
  have h := pointOnCurve_within_bounds "arc" (by decide) 1 2 0 (0, 0) (1, 1)
    (by norm_num) (by norm_num) (by norm_num) (by norm_num) (by norm_num)
  simpa using h

/-- Claim C4 counterexample: the string `"function"` is neither one of the five
recognized names nor a callable, yet the generator raises the TypeError (from
calling a string), not the InvalidCurveMethod error. -/
theorem generateRandomColorRamp_function_string :
    generateRandomColorRamp cfgFunctionStr = .error JsError.typeError ∧
    JsError.typeError ≠ JsError.invalidCurveMethod := ⟨rfl, by decide⟩

/-- Claim C4 as amended: when `curveMethod` is a string other than the five
recognized names and other than the literal `"function"`, and `total ≥ 1`, the
generator raises the InvalidCurveMethod error synchronously and returns no ramp
record. -/
theorem generateRandomColorRamp_unrecognized_name (cfg : Config) (s : String)
    (hcm : cfg.curveMethod = CurveMethod.str s)
    (h1 : isNamedCurve s = false) (h2 : s ≠ "function") (ht : 1 ≤ cfg.total) :
    generateRandomColorRamp cfg = .error JsError.invalidCurveMethod := by
  obtain ⟨m, hm⟩ : ∃ m, cfg.total.toNat = m + 1 := ⟨cfg.total.toNat - 1, by omega⟩
  have hstep : rampStep cfg 1 = .error JsError.invalidCurveMethod := by
    simp only [rampStep, hcm]
    rw [pointOnCurve_unrecognized s h1 h2]
  simp only [generateRandomColorRamp, hm, rampLoop]
  rw [hstep]

/-- Witness for C4 as amended: curve name `"bogus"` with `total = 3`. -/
theorem generateRandomColorRamp_unrecognized_name_witness :
    generateRandomColorRamp cfgBogus = .error JsError.invalidCurveMethod :=
  generateRandomColorRamp_unrecognized_name cfgBogus "bogus" rfl (by decide)
    (by decide) (by decide)

/-- Claim C6: under the preconditions `centerHue ∈ [0, 360)`, `hueCycle ∈ [0, 1]`
and `total ≥ 0`, the base hue of every loop index `i ≥ 1` lies in `[0, 360)`. -/
theorem rampHue_in_range (cfg : Config) (i : ℕ) (hi : 1 ≤ i)
    (hch0 : 0 ≤ cfg.centerHue) (hch1 : cfg.centerHue < 360)
    (hhc0 : 0 ≤ cfg.hueCycle) (hhc1 : cfg.hueCycle ≤ 1)
    (htot : 0 ≤ cfg.total) :
    0 ≤ rampHue cfg i ∧ rampHue cfg i < 360 := by
  have htotR : (0:ℝ) ≤ (cfg.total : ℝ) := by exact_mod_cast htot
  have hden : (0:ℝ) < (cfg.total : ℝ) + 1 := by linarith
  have hfrac : (0:ℝ) ≤ 360 / ((cfg.total : ℝ) + 1) := by positivity
  have hterm : (0:ℝ) ≤ (i : ℝ) * (360 / ((cfg.total : ℝ) + 1)) * cfg.hueCycle :=
    mul_nonneg (mul_nonneg (Nat.cast_nonneg i) hfrac) hhc0
  have hD : (0:ℝ) ≤ 360 + (-180 * cfg.hueCycle +
      (cfg.centerHue + (i : ℝ) * (360 / ((cfg.total : ℝ) + 1)) * cfg.hueCycle)) := by
    nlinarith
  have h := jsMod_nonneg_lt _ 360 hD (by norm_num)
  exact ⟨h.1, h.2⟩

/-- Witness for C6 at the spec's instance `centerHue = 350`, `hueCycle = 1`,
`total = 1`, loop index `i = 1`. -/
theorem rampHue_in_range_witness : 0 ≤ rampHue cfgHue 1 ∧ rampHue cfgHue 1 < 360 :=
  rampHue_in_range cfgHue 1 le_rfl
    (by norm_num [cfgHue]) (by norm_num [cfgHue]) (by norm_num [cfgHue])
    (by norm_num [cfgHue]) (by norm_num [cfgHue])

/-- Claim C10: with `total ≤ 0` the loop body never executes, so the generator
returns the record with four empty sequences and raises no error, regardless of
`curveMethod` (which is only validated inside the loop body). -/
theorem generateRandomColorRamp_nonpos_total (cfg : Config) (h : cfg.total ≤ 0) :
    generateRandomColorRamp cfg = .ok ⟨[], [], [], []⟩ := by
  have h0 : cfg.total.toNat = 0 := Int.toNat_of_nonpos h
  simp only [generateRandomColorRamp, h0, rampLoop]
  rfl

/-- Witness for C10: `total = 0` together with the unsupported curve name
`"bogus"` still yields the empty ramp record and no error. -/
theorem generateRandomColorRamp_nonpos_total_witness :
    generateRandomColorRamp cfgBogusZero = .ok ⟨[], [], [], []⟩ :=
  generateRandomColorRamp_nonpos_total cfgBogusZero (by decide)

/-- Claim C1: for every configuration with a recognized curve name, the generator
returns a record whose `base`, `light` and `dark` sequences each have length
`total` (as a natural number), and whose `all` sequence is exactly
`light ++ base ++ dark`, of length `3 × total`. -/
theorem generateRandomColorRamp_lengths (cfg : Config) (s : String)
    (hcm : cfg.curveMethod = CurveMethod.str s) (hs : isNamedCurve s = true) :
    ∃ r, generateRandomColorRamp cfg = .ok r ∧
      r.base.length = cfg.total.toNat ∧ r.light.length = cfg.total.toNat ∧
      r.dark.length = cfg.total.toNat ∧ r.all = r.light ++ r.base ++ r.dark ∧
      r.all.length = 3 * cfg.total.toNat := by
  refine ⟨_, generateRandomColorRamp_named cfg s hcm hs, ?_, ?_, ?_, rfl, ?_⟩
  · simp [List.length_range']
  · simp [List.length_range']
  · simp [List.length_range']
  · simp [List.length_range']
    omega

/-- Witness for C1: with `{total := 3}` and the defaults of the spec's table,
`base`, `light`, `dark` each have length 3 and `all` has length 9 in order
`light ++ base ++ dark`. -/
theorem generateRandomColorRamp_lengths_witness :
    ∃ r, generateRandomColorRamp defaultConfigPart = .ok r ∧
      r.base.length = 3 ∧ r.light.length = 3 ∧ r.dark.length = 3 ∧
      r.all = r.light ++ r.base ++ r.dark ∧ r.all.length = 9 :=
  generateRandomColorRamp_lengths defaultConfigPart "arc" rfl (by decide)

/-- Claim C5: for every configuration with a recognized curve name and every
`i` from 1 to `total`, the `i`-th tint entry is
`((h + 360·tintShadeHueShift) % 360, s_l - offsetTint, l_l + offsetTint)` where
`(h_l, s_l, l_l)` converts the curve point re-sampled at
`curveAccent + offsetCurveModTint`, and the `i`-th shade entry is
`((360 + (h - 360·tintShadeHueShift)) % 360, s_d - offsetShade, l_d - offsetShade)`
where `(h_d, s_d, l_d)` converts the curve point re-sampled at
`curveAccent - offsetCurveModShade`, with `h` the base hue of the same index. -/
theorem generateRandomColorRamp_tint_shade (cfg : Config) (s : String) (i : ℕ)
    (hcm : cfg.curveMethod = CurveMethod.str s) (hs : isNamedCurve s = true)
    (h1 : 1 ≤ i) (h2 : (i : ℤ) ≤ cfg.total) :
    ∃ r xl yl xd yd,
      generateRandomColorRamp cfg = .ok r ∧
      pointOnCurve cfg.curveMethod i ((cfg.total : ℝ) + 1)
        (cfg.curveAccent + cfg.offsetCurveModTint)
        cfg.minSaturationLight cfg.maxSaturationLight = .ok (xl, yl) ∧
      pointOnCurve cfg.curveMethod i ((cfg.total : ℝ) + 1)
        (cfg.curveAccent - cfg.offsetCurveModShade)
        cfg.minSaturationLight cfg.maxSaturationLight = .ok (xd, yd) ∧
      r.light[i - 1]? =
        some (jsMod (rampHue cfg i + 360 * cfg.tintShadeHueShift) 360,
          (hsv2hsx (rampHue cfg i) xl yl cfg.colorModel).2.1 - cfg.offsetTint,
          (hsv2hsx (rampHue cfg i) xl yl cfg.colorModel).2.2 + cfg.offsetTint) ∧
      r.dark[i - 1]? =
        some (jsMod (360 + (rampHue cfg i - 360 * cfg.tintShadeHueShift)) 360,
          (hsv2hsx (rampHue cfg i) xd yd cfg.colorModel).2.1 - cfg.offsetShade,
          (hsv2hsx (rampHue cfg i) xd yd cfg.colorModel).2.2 - cfg.offsetShade) := by
  have hlt : i - 1 < cfg.total.toNat := by omega
  refine ⟨_,
    (pointOnCurveOk s i ((cfg.total : ℝ) + 1)
      (cfg.curveAccent + cfg.offsetCurveModTint)
      cfg.minSaturationLight cfg.maxSaturationLight).1,
    (pointOnCurveOk s i ((cfg.total : ℝ) + 1)
      (cfg.curveAccent + cfg.offsetCurveModTint)
      cfg.minSaturationLight cfg.maxSaturationLight).2,
    (pointOnCurveOk s i ((cfg.total : ℝ) + 1)
      (cfg.curveAccent - cfg.offsetCurveModShade)
      cfg.minSaturationLight cfg.maxSaturationLight).1,
    (pointOnCurveOk s i ((cfg.total : ℝ) + 1)
      (cfg.curveAccent - cfg.offsetCurveModShade)
      cfg.minSaturationLight cfg.maxSaturationLight).2,
    generateRandomColorRamp_named cfg s hcm hs, ?_, ?_, ?_, ?_⟩
  · rw [hcm]
    exact pointOnCurve_named s hs i ((cfg.total : ℝ) + 1)
      (cfg.curveAccent + cfg.offsetCurveModTint)
      cfg.minSaturationLight cfg.maxSaturationLight
  · rw [hcm]
    exact pointOnCurve_named s hs i ((cfg.total : ℝ) + 1)
      (cfg.curveAccent - cfg.offsetCurveModShade)
      cfg.minSaturationLight cfg.maxSaturationLight
  · show ((List.range' 1 cfg.total.toNat).map
      (fun k => (stepOk cfg s k).2.1))[i - 1]? = _
    rw [List.getElem?_eq_getElem (by simpa using hlt)]
    simp only [List.getElem_map, List.getElem_range']
    rw [show 1 + 1 * (i - 1) = i from by omega]
    rfl
  · show ((List.range' 1 cfg.total.toNat).map
      (fun k => (stepOk cfg s k).2.2))[i - 1]? = _
    rw [List.getElem?_eq_getElem (by simpa using hlt)]
    simp only [List.getElem_map, List.getElem_range']
    rw [show 1 + 1 * (i - 1) = i from by omega]
    rfl

/-- Witness for C5: the defaults of the spec's table (curve name `"arc"`,
`total = 3`) at loop index `i = 1`. -/
theorem generateRandomColorRamp_tint_shade_witness :
    ∃ r xl yl xd yd,
      generateRandomColorRamp defaultConfigPart = .ok r ∧
      pointOnCurve defaultConfigPart.curveMethod ((1 : ℕ) : ℝ)
        ((defaultConfigPart.total : ℝ) + 1)
        (defaultConfigPart.curveAccent + defaultConfigPart.offsetCurveModTint)
        defaultConfigPart.minSaturationLight defaultConfigPart.maxSaturationLight =
          .ok (xl, yl) ∧
      pointOnCurve defaultConfigPart.curveMethod ((1 : ℕ) : ℝ)
        ((defaultConfigPart.total : ℝ) + 1)
        (defaultConfigPart.curveAccent - defaultConfigPart.offsetCurveModShade)
        defaultConfigPart.minSaturationLight defaultConfigPart.maxSaturationLight =
          .ok (xd, yd) ∧
      r.light[1 - 1]? =
        some (jsMod (rampHue defaultConfigPart 1 +
            360 * defaultConfigPart.tintShadeHueShift) 360,
          (hsv2hsx (rampHue defaultConfigPart 1) xl yl
            defaultConfigPart.colorModel).2.1 - defaultConfigPart.offsetTint,
          (hsv2hsx (rampHue defaultConfigPart 1) xl yl
            defaultConfigPart.colorModel).2.2 + defaultConfigPart.offsetTint) ∧
      r.dark[1 - 1]? =
        some (jsMod (360 + (rampHue defaultConfigPart 1 -
            360 * defaultConfigPart.tintShadeHueShift)) 360,
          (hsv2hsx (rampHue defaultConfigPart 1) xd yd
            defaultConfigPart.colorModel).2.1 - defaultConfigPart.offsetShade,
          (hsv2hsx (rampHue defaultConfigPart 1) xd yd
            defaultConfigPart.colorModel).2.2 - defaultConfigPart.offsetShade) :=
  generateRandomColorRamp_tint_shade defaultConfigPart "arc" 1 rfl (by decide)
    le_rfl (by decide)

/-- Claim C9 counterexample: in src/js/main.js the default value of `total` is
198, not 3. -/
theorem defaultConfigMain_total_198 :
    defaultConfigMain.total = 198 ∧ defaultConfigMain.total ≠ 3 := ⟨rfl, by decide⟩

/-- Claim C9 as amended: the defaults of src/js/main.js match the spec's table
except `total`, which defaults to 198 there; the unnamed variant
src/unnamed/part_000 defaults `total` to 3 exactly as the table says (so its
default result has `base`, `light`, `dark` of length 3); both files default
`curveMethod` to `"arc"`, `hueCycle` to 0.3, and `colorModel` to `"hsl"`. -/
theorem default_values_amended :
    defaultConfigMain = { defaultConfigPart with total := 198 } ∧
    defaultConfigPart.total = 3 ∧
    defaultConfigMain.hueCycle = 0.3 ∧
    defaultConfigMain.curveMethod = CurveMethod.str "arc" ∧
    defaultConfigMain.colorModel = "hsl" ∧
    ∃ r, generateRandomColorRamp defaultConfigPart = .ok r ∧
      r.base.length = 3 ∧ r.light.length = 3 ∧ r.dark.length = 3 := by
  refine ⟨rfl, rfl, rfl, rfl, rfl, ?_⟩
  refine ⟨_, generateRandomColorRamp_named defaultConfigPart "arc" rfl (by decide),
    ?_, ?_, ?_⟩
  all_goals simp [List.length_range', defaultConfigPart]

end Tintopia
